import Mathlib

/-!
Shallow embedding of src/docker-poc.py, a craft-parts based docker image
build pipeline.  Pure data is translated directly; the effectful parts
(filesystem, docker engine, craft_parts lifecycle manager) are modelled as
explicit state passing with the external collaborators supplied as
deterministic oracle functions.  Python exceptions are modelled by an
explicit error type and `Except`.
-/

namespace DockerPoc

/-- Python exception classes relevant to docker-poc.py, as leaf classes.
`systemExit` carries the process exit code (`sys.exit()` with no argument
carries 0). -/
inductive PyExc where
  | osError (msg : String)
  | schemaValidationError
  | invalidPartName (msg : String)
  | valueError (msg : String)
  | keyError (key : String)
  | runtimeError (msg : String)
  | indexError
  | tarReadError
  | shutilError (msg : String)
  | systemExit (code : Nat)
deriving DecidableEq, Repr

/-- One file inside a layer tar or a working directory: a path and its
byte content. -/
structure FileEntry where
  path : String
  content : String
deriving DecidableEq, Repr

/-- One entry of the parsed manifest.json list: the image's ordered layer
list (the value at the "Layers" key). -/
structure ManifestEntry where
  layers : List String
deriving DecidableEq, Repr

/-- A member of the exported image tar, as seen through
`TarFile.extractfile`: a regular file whose bytes parse as the manifest
JSON, a regular file holding a nested layer tar, or a member that is not a
regular file (directory, fifo, ...), for which `extractfile` returns
`None`. -/
inductive TarMember where
  | regularManifest (entries : List ManifestEntry)
  | regularLayer (entries : List FileEntry)
  | nonRegular
deriving DecidableEq, Repr

/-- The exported docker image archive: named tar members. -/
structure ImageArchive where
  members : List (String × TarMember)
deriving DecidableEq, Repr

/-- `TarFile.extractfile(name)`: raises `KeyError` when no member of the
archive has that name; returns `None` for a member that is not a regular
file; otherwise returns the member's file object. -/
def ImageArchive.extractfile (img : ImageArchive) (name : String) :
    Except PyExc (Option TarMember) :=
  match img.members.lookup name with
  | none => .error (.keyError name)
  | some .nonRegular => .ok none
  | some m => .ok (some m)

/-- `layer_tar.extract(entry, path=stage_dir)`: writes one entry into the
destination directory, overwriting any file already there at the same
path. -/
def writeEntry (dir : List FileEntry) (e : FileEntry) : List FileEntry :=
  dir.filter (fun f => f.path ≠ e.path) ++ [e]

/-- `for entry in layer_tar: layer_tar.extract(entry, path=stage_dir)`:
extract every entry of the layer tar, in order, into the destination. -/
def extractAll (dir : List FileEntry) : List FileEntry → List FileEntry
  | [] => dir
  | e :: rest => extractAll (writeEntry dir e) rest

/-- Embedding of `extract_stage_layer(image_file, stage_dir)`: open the
archive, look up manifest.json (`extractfile` raises `KeyError` when the
member is missing; the `RuntimeError` guard fires only when `extractfile`
returned `None`), take the last layer of the first manifest entry, open
that layer's nested tar and extract every entry into the destination.
Returns the destination directory contents. -/
def extract_stage_layer (img : ImageArchive) (stage_dir : List FileEntry) :
    Except PyExc (List FileEntry) :=
  match img.extractfile "manifest.json" with
  | .error e => .error e
  | .ok none => .error (.runtimeError "docker image missing manifest file")
  | .ok (some (.regularLayer _)) => .error (.valueError "json decode error")
  | .ok (some .nonRegular) => .error (.runtimeError "docker image missing manifest file")
  | .ok (some (.regularManifest entries)) =>
    match entries with
    | [] => .error .indexError
    | e0 :: _ =>
      match e0.layers.getLast? with
      | none => .error .indexError
      | some layerName =>
        match img.extractfile layerName with
        | .error e => .error e
        | .ok none => .error (.valueError "nothing to open")
        | .ok (some (.regularManifest _)) => .error .tarReadError
        | .ok (some .nonRegular) => .error (.valueError "nothing to open")
        | .ok (some (.regularLayer les)) => .ok (extractAll stage_dir les)

/-- craft_parts.Step: the four ordered lifecycle steps. -/
inductive Step where
  | PULL | BUILD | STAGE | PRIME
deriving DecidableEq, Repr

/-- craft_parts.ActionType. -/
inductive ActionType where
  | RUN | RERUN | SKIP | UPDATE
deriving DecidableEq, Repr

/-- craft_parts.Action: (step, type, part name, optional reason). -/
structure Action where
  step : Step
  type : ActionType
  part_name : String
  reason : Option String
deriving DecidableEq, Repr

/-- The nested message dictionary of `_action_message`, with a failed inner
lookup rendered as `none` (Python raises `KeyError` there).  Translated
entry by entry from the source. -/
def msgTable : Step → ActionType → Option String
  | .PULL, .RUN => some "Pull"
  | .PULL, .RERUN => some "Repull"
  | .PULL, .SKIP => some "Skip pull"
  | .PULL, .UPDATE => some "Update sources for"
  | .BUILD, .RUN => some "Build"
  | .BUILD, .RERUN => some "Rebuild"
  | .BUILD, .SKIP => some "Skip build"
  | .BUILD, .UPDATE => some "Update build for"
  | .STAGE, .RUN => some "Stage"
  | .STAGE, .RERUN => some "Restage"
  | .STAGE, .SKIP => some "Skip stage"
  | .STAGE, .UPDATE => none
  | .PRIME, .RUN => some "Prime"
  | .PRIME, .RERUN => some "Re-prime"
  | .PRIME, .SKIP => some "Skip prime"
  | .PRIME, .UPDATE => none

/-- Python truthiness of `a.reason` in `if a.reason:`: false for `None`
and for the empty string. -/
def reasonTruthy : Option String → Bool
  | none => false
  | some s => !s.isEmpty

/-- Embedding of `_action_message(a)`: look up `msg[a.step][a.type]`
(raising `KeyError` on a missing inner entry) and append the reason in
parentheses when it is truthy. -/
def action_message (a : Action) : Except PyExc String :=
  match msgTable a.step a.type with
  | none => .error (.keyError "ActionType.UPDATE")
  | some m =>
    if reasonTruthy a.reason then
      .ok (m ++ " " ++ a.part_name ++ " (" ++ (a.reason.getD "") ++ ")")
    else
      .ok (m ++ " " ++ a.part_name)

/-- Python `set(l1) == set(l2)` on lists of strings: equality as sets,
ignoring order and duplicates. -/
def pySetEq (l1 l2 : List String) : Bool :=
  l1.all (fun x => l2.contains x) && l2.all (fun x => l1.contains x)

/-- Result of the package-change check of `process_parts` (lines 61-69):
which lifecycle calls were made and the layer cache directory afterwards
(`none` models an absent directory). -/
structure CheckResult where
  cleanPullCalled : Bool
  reloadStateCalled : Bool
  rmtreeCalled : Bool
  layerDirAfter : Option (List FileEntry)
deriving DecidableEq, Repr

/-- Embedding of the invalidation check of `process_parts` (lines 61-69):
if `set(stage_deps) != set(state_stage_deps)` then clean the pull step,
reload the lifecycle state and, when the layer directory exists, remove it
recursively; otherwise do nothing. -/
def process_parts_check (stage_deps state_stage_deps : List String)
    (layerDir : Option (List FileEntry)) : CheckResult :=
  if !pySetEq stage_deps state_stage_deps then
    { cleanPullCalled := true
      reloadStateCalled := true
      rmtreeCalled := layerDir.isSome
      layerDirAfter := none }
  else
    { cleanPullCalled := false
      reloadStateCalled := false
      rmtreeCalled := false
      layerDirAfter := layerDir }

/-- The dockerfile rendered by `build_stage_layer`:
FROM ubuntu:{series} then RUN apt update && apt install followed by
the space-joined package list, exactly as the f-string produces it. -/
def renderStageDockerfile (series : String) (stage_packages : List String) :
    String :=
  "FROM ubuntu:" ++ series ++ "\n" ++
    "RUN apt update && apt install " ++
    String.intercalate " " stage_packages ++ "\n"

/-- `os.link(src, dst)` used as a copytree copy function: a hard link
succeeds or raises `OSError` (e.g. cross-filesystem), decided per path by
the filesystem capability oracle.  A successful hard link yields the same
bytes as the source. -/
def os_link (linkOk : String → Bool) (f : FileEntry) :
    Except PyExc FileEntry :=
  if linkOk f.path then .ok f else .error (.osError "Invalid cross-device link")

/-- `shutil.copytree(src, dst, copy_function=...)`: the destination must
not already exist (else `FileExistsError`); each file is copied with the
copy function; per-file `OSError`s are collected and raised at the end as
`shutil.Error` — there is no fallback to another copy method.  Returns the
new destination contents. -/
def copytree (copyFn : FileEntry → Except PyExc FileEntry)
    (src : List FileEntry) (dst : Option (List FileEntry)) :
    Except PyExc (List FileEntry) :=
  match dst with
  | some _ => .error (.osError "File exists")
  | none =>
    if src.all (fun f => (copyFn f).toBool) then
      .ok (src.map (fun f => ((copyFn f).toOption).getD f))
    else
      .error (.shutilError "copytree errors")

/-- Events the Stage Materializer can perform against the container engine
and the extractor: build an image from a dockerfile, export it as an
archive, extract a layer. -/
inductive Event where
  | engineBuild (dockerfile : String)
  | exportArchive
  | extraction
deriving DecidableEq, Repr

/-- The filesystem state the hook manipulates: the layer cache directory
(`_LAYER_DIR`), the stage and prime working directories (absent or
present with contents), and the exported archive file image_data.tar. -/
structure FsState where
  layerDir : Option (List FileEntry)
  stageDir : Option (List FileEntry)
  primeDir : Option (List FileEntry)
  imageTar : Option ImageArchive
deriving DecidableEq, Repr

/-- External collaborators of the hook: the docker engine (dockerfile to
exported archive, deterministic for one engine) and the filesystem's
hard-link capability per destination path. -/
structure Env where
  engine : String → ImageArchive
  linkOk : String → Bool

/-- Embedding of the prologue hook `build_stage_layer(project_info,
part_list)`.  When `_LAYER_DIR` exists, only a message is printed and
nothing else happens.  Otherwise: render the dockerfile from the stage
package list, build and export the image, write image_data.tar, extract
the stage layer into `_LAYER_DIR`, then copytree the layer into the stage
directory and into the prime directory with `os.link` as copy function.
Returns the events performed and the outcome. -/
def build_stage_layer (env : Env) (series : String)
    (stage_packages : List String) (s : FsState) :
    List Event × Except PyExc FsState :=
  match s.layerDir with
  | some _ => ([], .ok s)
  | none =>
    let dockerfile := renderStageDockerfile series stage_packages
    let img := env.engine dockerfile
    let evs := [Event.engineBuild dockerfile, Event.exportArchive,
      Event.extraction]
    let s1 : FsState := { s with imageTar := some img }
    let result : Except PyExc FsState :=
      match extract_stage_layer img [] with
      | .error e => .error e
      | .ok layer =>
        let s2 : FsState := { s1 with layerDir := some layer }
        match copytree (os_link env.linkOk) layer s2.stageDir with
        | .error e => .error e
        | .ok staged =>
          let s3 : FsState := { s2 with stageDir := some staged }
          match copytree (os_link env.linkOk) layer s3.primeDir with
          | .error e => .error e
          | .ok primed => .ok { s3 with primeDir := some primed }
    (evs, result)

/-- The command-line options relevant to `_do_step` and `_do_clean`. -/
structure Options where
  command : Option String
  parts : List String
  update : Bool
  plan_only : Bool
deriving Repr

/-- Map an Except-producing function over a list, stopping at the first
error (the Python loop raises there). -/
def mapExcept (f : α → Except PyExc β) : List α → Except PyExc (List β)
  | [] => .ok []
  | a :: as =>
    match f a with
    | .error e => .error e
    | .ok b =>
      match mapExcept f as with
      | .error e => .error e
      | .ok bs => .ok (b :: bs)

/-- Outcome of `_do_step`: the lines printed, the actions passed to
`ctx.execute`, and the exit code when `sys.exit` fired (`sys.exit()` with
no argument exits 0). -/
structure StepOutcome where
  printed : List String
  executed : List Action
  exitCode : Option Nat
deriving DecidableEq, Repr

/-- Embedding of `_do_step(lf, options)`.  The action plan produced by
`lf.plan(target_step, part_names)` is an input (the lifecycle manager is
external).  With `--plan-only`, print the message of each non-skip action
(or a fallback line when there is none) and exit 0; otherwise execute each
non-skip action in the execution context, printing before each. -/
def do_step (options : Options) (actions : List Action) :
    Except PyExc StepOutcome :=
  let nonSkip := actions.filter (fun a => a.type ≠ ActionType.SKIP)
  if options.plan_only then
    match mapExcept action_message nonSkip with
    | .error e => .error e
    | .ok msgs =>
      .ok { printed := if msgs.isEmpty then ["No actions to execute."] else msgs
            executed := []
            exitCode := some 0 }
  else
    match mapExcept action_message nonSkip with
    | .error e => .error e
    | .ok msgs =>
      .ok { printed := msgs.map (fun m => "Execute: " ++ m)
            executed := nonSkip
            exitCode := none }

/-- Outcome of `_do_clean`: whether `lf.clean` was called, whether the
layer directory was removed, and the layer directory afterwards. -/
structure CleanOutcome where
  cleanCalled : Bool
  rmtreeCalled : Bool
  layerDirAfter : Option (List FileEntry)
deriving DecidableEq, Repr

/-- Embedding of `_do_clean(lf, options)`: with `--plan-only` raise
`ValueError("Clean operations cannot be planned.")`; otherwise clean via
the lifecycle manager and remove the layer directory if it exists. -/
def do_clean (options : Options) (layerDir : Option (List FileEntry)) :
    Except PyExc CleanOutcome :=
  if options.plan_only then
    .error (.valueError "Clean operations cannot be planned.")
  else
    .ok { cleanCalled := true
          rmtreeCalled := layerDir.isSome
          layerDirAfter := none }

/-- How `main` terminates: with an exit code, or by letting an exception
escape (the interpreter then prints a traceback). -/
inductive MainOutcome where
  | exit (code : Nat)
  | uncaught (e : PyExc)
deriving DecidableEq, Repr

/-- Embedding of `main()`'s try/except chain around `process_parts`,
applied to the outcome of `process_parts` (`none` = returned normally).
`SystemExit` does not derive from `Exception`, so `sys.exit` inside
`process_parts` passes through every handler.  Handlers in source order:
OSError exits 1, SchemaValidationError exits 2, InvalidPartName exits 3,
ValueError exits 4. -/
def pyMain (r : Option PyExc) : MainOutcome :=
  match r with
  | none => .exit 0
  | some (.systemExit c) => .exit c
  | some (.osError _) => .exit 1
  | some .schemaValidationError => .exit 2
  | some (.invalidPartName _) => .exit 3
  | some (.valueError _) => .exit 4
  | some e => .uncaught e

/-- A one-file stage layer, the filesystem delta of the package install. -/
def sampleLayer : List FileEntry := [⟨"f", "hello"⟩]

/-- A manifest with one image entry whose ordered layer list is
[L0, L1, L2]. -/
def sampleManifest : List ManifestEntry := [⟨["L0", "L1", "L2"]⟩]

/-- A well-formed exported image archive: manifest plus three layers with
pairwise distinct contents. -/
def sampleImg : ImageArchive :=
  ⟨[("manifest.json", .regularManifest sampleManifest),
    ("L0", .regularLayer [⟨"b", "base"⟩]),
    ("L1", .regularLayer [⟨"m", "mid"⟩]),
    ("L2", .regularLayer sampleLayer)]⟩

/-- An archive with no manifest.json member at all. -/
def noManifestImg : ImageArchive := ⟨[("L0", .regularLayer [⟨"b", "base"⟩])]⟩

/-- An archive whose manifest.json member exists but is not a regular file
(e.g. a directory entry), the one case where `extractfile` returns None. -/
def dirManifestImg : ImageArchive :=
  ⟨[("manifest.json", .nonRegular), ("L0", .regularLayer [⟨"b", "base"⟩])]⟩

/-- An environment whose engine always exports `sampleImg` and whose
filesystem supports hard links everywhere. -/
def sampleEnv : Env := ⟨fun _ => sampleImg, fun _ => true⟩

/-- An environment where hard-linking the layer file at path "f" is
unsupported (e.g. the stage directory lives on another filesystem). -/
def crossDevEnv : Env := ⟨fun _ => sampleImg, fun p => !(p == "f")⟩

/-- Fresh state: no layer cache, no stage/prime directories, no archive. -/
def missState : FsState := ⟨none, none, none, none⟩

/-- Cache-hit state: the layer cache exists but the stage and prime
directories do not (e.g. right after the lifecycle state was cleaned
without cleaning the layer directory). -/
def hitState : FsState := ⟨some sampleLayer, none, none, none⟩

/-- The state `build_stage_layer` produces from `missState` under
`sampleEnv`. -/
def missResultState : FsState :=
  ⟨some sampleLayer, some sampleLayer, some sampleLayer, some sampleImg⟩

/-- The events of that cache-miss run. -/
def missEvents : List Event :=
  [.engineBuild "FROM ubuntu:20.04\nRUN apt update && apt install curl\n",
   .exportArchive, .extraction]

/-- Options for a plan-only prime invocation. -/
def planOptions : Options := ⟨some "prime", [], false, true⟩

/-- A plan with one skipped pull and one prime action. -/
def planActions : List Action :=
  [⟨.PULL, .SKIP, "p1", none⟩, ⟨.PRIME, .RUN, "p1", none⟩]

theorem mem_writeEntry {dir : List FileEntry} {e f : FileEntry}
    (h : f ∈ writeEntry dir e) : f ∈ dir ∨ f = e := by
  unfold writeEntry at h
  rcases List.mem_append.mp h with h1 | h1
  · exact Or.inl (List.mem_of_mem_filter h1)
  · exact Or.inr (List.mem_singleton.mp h1)

theorem self_mem_writeEntry (dir : List FileEntry) (e : FileEntry) :
    e ∈ writeEntry dir e := by
  unfold writeEntry
  exact List.mem_append_right _ (List.mem_singleton.mpr rfl)

theorem mem_extractAll {es : List FileEntry} :
    ∀ {dir f}, f ∈ extractAll dir es → f ∈ dir ∨ f ∈ es := by
  induction es with
  | nil => intro dir f h; exact Or.inl h
  | cons e rest ih =>
    intro dir f h
    rw [extractAll] at h
    rcases ih h with h1 | h1
    · rcases mem_writeEntry h1 with h2 | h2
      · exact Or.inl h2
      · exact Or.inr (h2 ▸ List.mem_cons_self e rest)
    · exact Or.inr (List.mem_cons_of_mem e h1)

theorem path_persists {es : List FileEntry} :
    ∀ {dir p}, (∃ g ∈ dir, g.path = p) →
      ∃ g ∈ extractAll dir es, g.path = p := by
  induction es with
  | nil => intro dir p h; exact h
  | cons e rest ih =>
    intro dir p h
    rw [extractAll]
    apply ih
    obtain ⟨g, hg, hp⟩ := h
    by_cases hpe : g.path = e.path
    · exact ⟨e, self_mem_writeEntry dir e, by rw [← hpe, hp]⟩
    · refine ⟨g, ?_, hp⟩
      unfold writeEntry
      apply List.mem_append_left
      exact List.mem_filter.mpr ⟨hg, by simpa using hpe⟩

theorem mem_coverage {es : List FileEntry} :
    ∀ {dir} {f : FileEntry}, f ∈ es →
      ∃ g ∈ extractAll dir es, g.path = f.path := by
  induction es with
  | nil => intro dir f h; cases h
  | cons e rest ih =>
    intro dir f h
    rw [extractAll]
    rcases List.mem_cons.mp h with h1 | h1
    · subst h1
      exact path_persists ⟨f, self_mem_writeEntry dir f, rfl⟩
    · exact ih h1

theorem pySetEq_iff (l1 l2 : List String) :
    pySetEq l1 l2 = true ↔ (∀ x, x ∈ l1 ↔ x ∈ l2) := by
  unfold pySetEq
  rw [Bool.and_eq_true, List.all_eq_true, List.all_eq_true]
  constructor
  · rintro ⟨h1, h2⟩ x
    constructor
    · intro hx; simpa using h1 x hx
    · intro hx; simpa using h2 x hx
  · intro h
    constructor
    · intro x hx; simpa using (h x).mp hx
    · intro x hx; simpa using (h x).mpr hx

theorem os_link_toBool (lok : String → Bool) (f : FileEntry) :
    (os_link lok f).toBool = lok f.path := by
  unfold os_link
  by_cases h : lok f.path = true
  · simp [h, Except.toBool]
  · simp [h, Except.toBool]

theorem os_link_map (lok : String → Bool) (src : List FileEntry) :
    src.map (fun f => ((os_link lok f).toOption).getD f) = src := by
  induction src with
  | nil => rfl
  | cons f rest ih =>
    rw [List.map_cons, ih]
    congr 1
    unfold os_link
    by_cases h : lok f.path = true
    · simp [h, Except.toOption]
    · simp [h, Except.toOption]

theorem copytree_link_ok {lok : String → Bool} {src : List FileEntry}
    {dst : Option (List FileEntry)} {res : List FileEntry}
    (h : copytree (os_link lok) src dst = .ok res) :
    dst = none ∧ res = src := by
  cases dst with
  | some d => simp [copytree] at h
  | none =>
    refine ⟨rfl, ?_⟩
    by_cases hall : (src.all fun f => (os_link lok f).toBool) = true
    · simp only [copytree, hall, if_true] at h
      injection h with h
      rw [← h, os_link_map]
    · simp [copytree, hall] at h

theorem bsl_hit {env : Env} {series : String} {pkgs : List String}
    {s : FsState} (h : s.layerDir.isSome = true) :
    build_stage_layer env series pkgs s = ([], .ok s) := by
  cases hld : s.layerDir with
  | some L => unfold build_stage_layer; rw [hld]
  | none => rw [hld] at h; cases h

theorem bsl_ok_shape {env : Env} {series : String} {pkgs : List String}
    {s s' : FsState} {evs : List Event}
    (h : build_stage_layer env series pkgs s = (evs, .ok s')) :
    (s.layerDir.isSome = true ∧ s' = s ∧ evs = []) ∨
    (s.layerDir = none ∧ ∃ L, s'.layerDir = some L ∧ s'.stageDir = some L
      ∧ s'.primeDir = some L) := by
  cases hld : s.layerDir with
  | some L =>
    left
    rw [bsl_hit (by rw [hld]; rfl)] at h
    injection h with h1 h2
    injection h2 with h2
    exact ⟨rfl, h2.symm, h1.symm⟩
  | none =>
    right
    refine ⟨rfl, ?_⟩
    unfold build_stage_layer at h
    rw [hld] at h
    dsimp only at h
    injection h with h1 h2
    split at h2
    · cases h2
    · rename_i layer hex
      split at h2
      · cases h2
      · rename_i staged hcs
        obtain ⟨hsd, hst⟩ := copytree_link_ok hcs
        split at h2
        · cases h2
        · rename_i primed hcp
          obtain ⟨hpd, hpr⟩ := copytree_link_ok hcp
          injection h2 with h2
          refine ⟨layer, by rw [← h2], ?_, ?_⟩
          · rw [← h2]
            show some staged = some layer
            rw [hst]
          · rw [← h2]
            show some primed = some layer
            rw [hpr]

theorem engineBuild_df {env : Env} {series : String} {pkgs : List String}
    {s : FsState} {df : String}
    (h : Event.engineBuild df ∈ (build_stage_layer env series pkgs s).1) :
    df = renderStageDockerfile series pkgs := by
  cases hld : s.layerDir with
  | some L =>
    rw [bsl_hit (by rw [hld]; rfl)] at h
    cases h
  | none =>
    unfold build_stage_layer at h
    rw [hld] at h
    dsimp only at h
    rcases List.mem_cons.mp h with h1 | h1
    · injection h1
    · rcases List.mem_cons.mp h1 with h2 | h2
      · cases h2
      · rcases List.mem_cons.mp h2 with h3 | h3
        · cases h3
        · cases h3

/-- C1 counterexample: the claim is false as stated.  On a cache-hit
invocation (`_LAYER_DIR` present) the hook takes the else branch and makes
no copies at all: from a state whose stage and prime directories are
absent, they remain absent after the hook, so they do not contain a copy
of the cached layer's contents. -/
theorem cache_hit_no_propagation :
    build_stage_layer sampleEnv "20.04" ["curl"] hitState = ([], .ok hitState)
    ∧ hitState.layerDir = some sampleLayer
    ∧ sampleLayer ≠ []
    ∧ hitState.stageDir = none
    ∧ hitState.primeDir = none :=
  ⟨rfl, rfl, by decide, rfl, rfl⟩

/-- C1 (amended): on a cache-miss invocation that succeeds, the hook
leaves the layer, stage and prime directories all holding the same
contents; on a cache-hit invocation the hook performs no action and
leaves the whole state (stage and prime directories included)
unchanged. -/
theorem build_stage_layer_propagation (env : Env) (series : String)
    (pkgs : List String) (s s' : FsState) (evs : List Event)
    (hok : build_stage_layer env series pkgs s = (evs, .ok s')) :
    (s.layerDir = none →
      ∃ L, s'.layerDir = some L ∧ s'.stageDir = some L ∧ s'.primeDir = some L)
    ∧ (s.layerDir.isSome = true → s' = s ∧ evs = []) := by
  rcases bsl_ok_shape hok with ⟨h1, h2, h3⟩ | ⟨h1, h2⟩
  · constructor
    · intro hn; rw [hn] at h1; cases h1
    · intro _; exact ⟨h2, h3⟩
  · constructor
    · intro _; exact h2
    · intro hs; rw [h1] at hs; cases hs

/-- Witness for the amended C1 theorem at a concrete cache-miss run. -/
theorem build_stage_layer_propagation_witness :
    ∃ L, missResultState.layerDir = some L
      ∧ missResultState.stageDir = some L
      ∧ missResultState.primeDir = some L :=
  (build_stage_layer_propagation sampleEnv "20.04" ["curl"] missState
    missResultState missEvents (by rfl)).1 rfl

/-- C2: in `process_parts`, the pull state is cleaned, the lifecycle
state reloaded and the layer cache invalidated (removed when present)
exactly when the freshly resolved package set differs, as a set, from the
recorded one; when the two sets are equal nothing is cleared or
removed. -/
theorem process_parts_invalidation (sd ssd : List String)
    (ld : Option (List FileEntry)) :
    (¬ (∀ x, x ∈ sd ↔ x ∈ ssd) →
      process_parts_check sd ssd ld =
        { cleanPullCalled := true, reloadStateCalled := true,
          rmtreeCalled := ld.isSome, layerDirAfter := none })
    ∧ ((∀ x, x ∈ sd ↔ x ∈ ssd) →
      process_parts_check sd ssd ld =
        { cleanPullCalled := false, reloadStateCalled := false,
          rmtreeCalled := false, layerDirAfter := ld }) := by
  constructor
  · intro h
    have hb : pySetEq sd ssd = false := by
      cases hb2 : pySetEq sd ssd
      · rfl
      · exact absurd ((pySetEq_iff sd ssd).mp hb2) h
    unfold process_parts_check
    rw [hb]
    rfl
  · intro h
    have hb : pySetEq sd ssd = true := (pySetEq_iff sd ssd).mpr h
    unfold process_parts_check
    rw [hb]
    rfl

/-- Witness for C2: an actually different pair of package lists triggers
the full invalidation, and a set-equal pair (order and duplicates
ignored) triggers nothing. -/
theorem process_parts_invalidation_witness :
    process_parts_check ["a"] ["b"] (some sampleLayer) =
      { cleanPullCalled := true, reloadStateCalled := true,
        rmtreeCalled := true, layerDirAfter := none }
    ∧ process_parts_check ["a", "b", "a"] ["b", "a"] (some sampleLayer) =
      { cleanPullCalled := false, reloadStateCalled := false,
        rmtreeCalled := false, layerDirAfter := some sampleLayer } :=
  ⟨(process_parts_invalidation ["a"] ["b"] (some sampleLayer)).1
    (fun h => by have h2 := (h "a").mp (by simp); simp at h2),
   (process_parts_invalidation ["a", "b", "a"] ["b", "a"] (some sampleLayer)).2
    (fun x => by constructor <;> (intro hx; simp at hx ⊢; tauto))⟩

/-- C3: for an archive whose manifest parses to a non-empty entry list,
whose first entry has a non-empty layer list, and whose last-named layer
is a regular member, extraction into an empty destination yields exactly
the entries of that last layer: everything extracted comes from it, every
one of its paths is present, and nothing from any other layer appears. -/
theorem extract_selects_topmost_layer (img : ImageArchive)
    (e0 : ManifestEntry) (rest : List ManifestEntry)
    (hm : img.extractfile "manifest.json" =
      .ok (some (.regularManifest (e0 :: rest))))
    (lname : String) (hl : e0.layers.getLast? = some lname)
    (les : List FileEntry)
    (hlay : img.extractfile lname = .ok (some (.regularLayer les))) :
    extract_stage_layer img [] = .ok (extractAll [] les)
    ∧ (∀ f, f ∈ extractAll [] les → f ∈ les)
    ∧ (∀ f, f ∈ les → ∃ g ∈ extractAll [] les, g.path = f.path) := by
  refine ⟨?_, ?_, ?_⟩
  · simp only [extract_stage_layer, hm, hl, hlay]
  · intro f h
    rcases mem_extractAll h with h1 | h1
    · cases h1
    · exact h1
  · intro f h
    exact mem_coverage h

/-- Witness for C3 on a concrete archive with layers [L0, L1, L2]: only
L2's contents are extracted. -/
theorem extract_selects_topmost_layer_witness :
    extract_stage_layer sampleImg [] = .ok (extractAll [] sampleLayer)
    ∧ (∀ f, f ∈ extractAll [] sampleLayer → f ∈ sampleLayer)
    ∧ (∀ f, f ∈ sampleLayer →
        ∃ g ∈ extractAll [] sampleLayer, g.path = f.path) :=
  extract_selects_topmost_layer sampleImg ⟨["L0", "L1", "L2"]⟩ []
    (by rfl) "L2" (by rfl) sampleLayer (by rfl)

/-- C4: the code contradicts the claim.  For an archive with no
manifest.json member, `TarFile.extractfile` raises `KeyError` before the
`RuntimeError` guard is reached, so the promised descriptive error never
fires on that input; the RuntimeError fires only when the member exists
but is not a regular file.  In both cases nothing is extracted. -/
theorem missing_manifest_raises_keyerror :
    extract_stage_layer noManifestImg [] = .error (.keyError "manifest.json")
    ∧ extract_stage_layer dirManifestImg [] =
        .error (.runtimeError "docker image missing manifest file") :=
  ⟨rfl, rfl⟩

/-- C5: the hook is idempotent: on any state with the cache directory
present it performs no engine build, no export and no extraction (no
events) and changes nothing; and after any successful invocation, a
second invocation performs no events and leaves the state — the cache
directory included — exactly as the first left it. -/
theorem build_stage_layer_idempotent (env : Env) (series : String)
    (pkgs : List String) :
    (∀ s, s.layerDir.isSome = true →
      build_stage_layer env series pkgs s = ([], .ok s))
    ∧ (∀ s s' evs, build_stage_layer env series pkgs s = (evs, .ok s') →
      build_stage_layer env series pkgs s' = ([], .ok s')) := by
  constructor
  · exact fun s h => bsl_hit h
  · intro s s' evs hok
    apply bsl_hit
    rcases bsl_ok_shape hok with ⟨h1, h2, _⟩ | ⟨_, L, hL, _, _⟩
    · rw [h2]; exact h1
    · rw [hL]; rfl

/-- Witness for C5: concrete cache-hit run does nothing; re-running after
a concrete successful cache-miss run does nothing further. -/
theorem build_stage_layer_idempotent_witness :
    build_stage_layer sampleEnv "20.04" ["curl"] hitState = ([], .ok hitState)
    ∧ build_stage_layer sampleEnv "20.04" ["curl"] missResultState =
        ([], .ok missResultState) :=
  ⟨(build_stage_layer_idempotent sampleEnv "20.04" ["curl"]).1 hitState rfl,
   (build_stage_layer_idempotent sampleEnv "20.04" ["curl"]).2 missState
     missResultState missEvents (by rfl)⟩

/-- C6: with plan-only enabled (and every planned non-skip action having
a message), `_do_step` prints the plan, executes nothing and exits 0; and
`_do_clean` under plan-only raises the ValueError which `main` maps to
exit code 4. -/
theorem plan_only_no_execution (options : Options) (actions : List Action)
    (msgs : List String) (ld : Option (List FileEntry))
    (hp : options.plan_only = true)
    (hm : mapExcept action_message
        (actions.filter (fun a => a.type ≠ ActionType.SKIP)) = .ok msgs) :
    do_step options actions =
      .ok { printed := if msgs.isEmpty then ["No actions to execute."] else msgs
            executed := []
            exitCode := some 0 }
    ∧ do_clean options ld = .error (.valueError "Clean operations cannot be planned.")
    ∧ pyMain (some (.valueError "Clean operations cannot be planned.")) = .exit 4 := by
  refine ⟨?_, ?_, rfl⟩
  · unfold do_step
    rw [hp]
    simp only [if_true, hm]
  · unfold do_clean
    rw [hp]
    simp only [if_true]

/-- Witness for C6 at a concrete plan-only prime invocation with one
skipped pull and one prime action. -/
theorem plan_only_no_execution_witness :
    do_step planOptions planActions =
      .ok { printed := ["Prime p1"], executed := [], exitCode := some 0 }
    ∧ do_clean planOptions none =
        .error (.valueError "Clean operations cannot be planned.")
    ∧ pyMain (some (.valueError "Clean operations cannot be planned.")) = .exit 4 := by
  have h := plan_only_no_execution planOptions planActions ["Prime p1"] none
    rfl (by rfl)
  simpa using h

/-- C7: `main` maps the outcome of `process_parts` to exit codes exactly
as specified: no exception exits 0, OSError exits 1,
SchemaValidationError exits 2, InvalidPartName exits 3, any other
ValueError exits 4; and an internal `sys.exit()` (SystemExit) is not
caught and exits 0. -/
theorem main_exit_codes :
    pyMain none = .exit 0
    ∧ (∀ m, pyMain (some (.osError m)) = .exit 1)
    ∧ pyMain (some .schemaValidationError) = .exit 2
    ∧ (∀ m, pyMain (some (.invalidPartName m)) = .exit 3)
    ∧ (∀ m, pyMain (some (.valueError m)) = .exit 4)
    ∧ pyMain (some (.systemExit 0)) = .exit 0 :=
  ⟨rfl, fun _ => rfl, rfl, fun _ => rfl, fun _ => rfl, rfl⟩

/-- C8 counterexample: the claim is false as stated.  Two runs whose
package collections are equal as sets but iterated in different orders
render different build descriptions (the f-string joins the list in
iteration order; nothing sorts it), so the rendered description is not a
function of the set. -/
theorem dockerfile_not_set_deterministic :
    pySetEq ["curl", "git"] ["git", "curl"] = true
    ∧ (build_stage_layer sampleEnv "20.04" ["curl", "git"] missState).1 ≠
      (build_stage_layer sampleEnv "20.04" ["git", "curl"] missState).1 :=
  ⟨rfl, by decide⟩

/-- C8 (amended): the rendered build description is a deterministic
function of the series and the package-name sequence: any two engine
builds performed by the hook for the same series and the same package
sequence — whatever the environment or starting state — use the identical
dockerfile. -/
theorem dockerfile_deterministic (env1 env2 : Env) (series : String)
    (pkgs : List String) (s1 s2 : FsState) (df1 df2 : String)
    (h1 : Event.engineBuild df1 ∈ (build_stage_layer env1 series pkgs s1).1)
    (h2 : Event.engineBuild df2 ∈ (build_stage_layer env2 series pkgs s2).1) :
    df1 = df2 := by
  rw [engineBuild_df h1, engineBuild_df h2]

/-- Witness for the amended C8 theorem: two concrete runs in different
environments and states build with the same dockerfile. -/
theorem dockerfile_deterministic_witness :
    "FROM ubuntu:20.04\nRUN apt update && apt install curl\n" =
      "FROM ubuntu:20.04\nRUN apt update && apt install curl\n" :=
  dockerfile_deterministic sampleEnv crossDevEnv "20.04" ["curl"]
    missState missState
    "FROM ubuntu:20.04\nRUN apt update && apt install curl\n"
    "FROM ubuntu:20.04\nRUN apt update && apt install curl\n"
    (by decide) (by decide)

/-- C9 counterexample: the claim is false as stated.  With a filesystem
where hard-linking the layer's file is unsupported, the copytree with
`os.link` as copy function raises `shutil.Error` instead of falling back
to a byte copy, and the hook invocation fails. -/
theorem link_failure_aborts :
    crossDevEnv.linkOk "f" = false
    ∧ copytree (os_link crossDevEnv.linkOk) sampleLayer none =
        .error (.shutilError "copytree errors")
    ∧ (build_stage_layer crossDevEnv "20.04" ["curl"] missState).2 =
        .error (.shutilError "copytree errors") :=
  ⟨rfl, rfl, rfl⟩

/-- C9 (amended): population uses `os.link` for every file with no
fallback: when hard-linking succeeds for every file the destination is a
byte-identical copy of the source; when it is unsupported for any file,
copytree raises rather than copying. -/
theorem copytree_link_no_fallback (lok : String → Bool)
    (src : List FileEntry) :
    ((∀ f ∈ src, lok f.path = true) →
      copytree (os_link lok) src none = .ok src)
    ∧ ((∃ f ∈ src, lok f.path = false) →
      copytree (os_link lok) src none =
        .error (.shutilError "copytree errors")) := by
  constructor
  · intro h
    have hall : (src.all fun f => (os_link lok f).toBool) = true := by
      rw [List.all_eq_true]
      intro f hf
      rw [os_link_toBool]
      exact h f hf
    simp only [copytree, hall, if_true, os_link_map]
  · rintro ⟨f, hf, hlok⟩
    have hall : (src.all fun f => (os_link lok f).toBool) = false := by
      cases hb : (src.all fun f => (os_link lok f).toBool)
      · rfl
      · rw [List.all_eq_true] at hb
        have h2 := hb f hf
        rw [os_link_toBool, hlok] at h2
        cases h2
    simp [copytree, hall]

/-- Witness for the amended C9 theorem: hard-linking succeeds for every
file on a link-capable filesystem, and aborts on one where the layer
file cannot be linked. -/
theorem copytree_link_no_fallback_witness :
    copytree (os_link sampleEnv.linkOk) sampleLayer none = .ok sampleLayer
    ∧ copytree (os_link crossDevEnv.linkOk) sampleLayer none =
        .error (.shutilError "copytree errors") :=
  ⟨(copytree_link_no_fallback sampleEnv.linkOk sampleLayer).1 (by decide),
   (copytree_link_no_fallback crossDevEnv.linkOk sampleLayer).2
     ⟨⟨"f", "hello"⟩, by decide, by decide⟩⟩

/-- C10: the message table of `_action_message` has no entry exactly for
(STAGE, UPDATE) and (PRIME, UPDATE), where the lookup raises `KeyError`;
every other (step, type) pair yields a message string, with the reason
appended in parentheses when it is present and non-empty. -/
theorem action_message_lookup (st : Step) (ty : ActionType) (pn : String)
    (r : Option String) :
    (msgTable st ty = none ↔ ((st = .STAGE ∨ st = .PRIME) ∧ ty = .UPDATE))
    ∧ (msgTable st ty = none →
      action_message ⟨st, ty, pn, r⟩ = .error (.keyError "ActionType.UPDATE"))
    ∧ (∀ m, msgTable st ty = some m → r = none →
      action_message ⟨st, ty, pn, r⟩ = .ok (m ++ " " ++ pn))
    ∧ (∀ m rs, msgTable st ty = some m → r = some rs → rs ≠ "" →
      action_message ⟨st, ty, pn, r⟩ =
        .ok (m ++ " " ++ pn ++ " (" ++ rs ++ ")")) := by
  refine ⟨?_, ?_, ?_, ?_⟩
  · cases st <;> cases ty <;> simp [msgTable]
  · intro h
    unfold action_message
    rw [h]
  · intro m hm hr
    unfold action_message
    rw [hm, hr]
    rfl
  · intro m rs hm hr hne
    unfold action_message
    rw [hm, hr]
    have ht : reasonTruthy (some rs) = true := by
      cases hemp : rs.isEmpty
      · simp [reasonTruthy, hemp]
      · exact absurd ((String.isEmpty_iff rs).mp hemp) hne
    rw [ht]
    simp [Option.getD]

/-- Witness for C10: the lookup fails on a concrete (STAGE, UPDATE)
action and succeeds, reason appended, on a concrete (PULL, RUN)
action. -/
theorem action_message_lookup_witness :
    action_message ⟨.STAGE, .UPDATE, "p1", none⟩ =
      .error (.keyError "ActionType.UPDATE")
    ∧ action_message ⟨.PULL, .RUN, "p1", some "source changed"⟩ =
      .ok "Pull p1 (source changed)" :=
  ⟨(action_message_lookup .STAGE .UPDATE "p1" none).2.1 rfl,
   by
    have h := (action_message_lookup .PULL .RUN "p1"
      (some "source changed")).2.2.2 "Pull" "source changed" rfl rfl
      (by decide)
    simpa using h⟩

end DockerPoc
